import Mathlib

/-!
Formal model of the two core subsystems of the `solar-system` repository:

* the Orbital Animation Driver — the `useFrame` callback of `CelestialBody`
  (src/unnamed/part_003 lines 64-84, identical maths in src/unnamed/part_002
  lines 48-62), together with the per-body constants of
  src/unnamed/part_008 (`PLANET_DATA`);
* the Speech Acquisition Pipeline — `useHybridTTS`
  (src/src/hooks/useHybridTTS.ts), the `/api/enhance-text` route
  (src/unnamed/part_001 lines 9-153) and the `/api/tts` route
  (src/src/app/api/tts/route.ts).

Numeric modelling: the JavaScript numbers appearing in the animation code are
IEEE binary64 values, all of which are rational, so body constants and elapsed
times are modelled as `ℚ`; the trigonometric position itself lives in `ℝ` and
arithmetic is idealized real arithmetic (§8 of the spec reads the orbit
properties "exactly over real arithmetic / within floating-point tolerance").
-/

namespace Solar

/-! ## Orbital animation driver (CelestialBody useFrame callback) -/

/-- Kinematic constants of one celestial body: the three fields of the
`PlanetData` interface (src/unnamed/part_008 lines 1-12) that the `useFrame`
callback of `CelestialBody` reads. -/
structure Body where
  orbitSpeed : ℚ
  rotationSpeed : ℚ
  distance : ℚ

/-- The orbital angle computed by the frame callback
(src/unnamed/part_003 line 74): `angle = elapsedTime * planetData.orbitSpeed * 0.2`.
Note the callback reads no speed-multiplier value: the `orbitSpeedMultiplier`
prop passed down by `SceneContent` (src/unnamed/part_001 line 435) is neither
declared nor read by `CelestialBody`. -/
def orbitAngle (b : Body) (t : ℚ) : ℚ :=
  t * b.orbitSpeed * 0.2

/-- The self-rotation update of the frame callback
(src/unnamed/part_003 lines 68-70): if `rotationSpeed > 0` the rotation is set
to `elapsedTime * rotationSpeed * 0.5`, otherwise the mesh rotation `r` is left
unchanged. -/
def rotStep (b : Body) (t r : ℚ) : ℚ :=
  if 0 < b.rotationSpeed then t * b.rotationSpeed * 0.5 else r

/-- A three.js position vector (`group.position`). -/
structure Vec3 where
  x : ℝ
  y : ℝ
  z : ℝ

/-- Initial group position `[0, 0, 0]` (src/unnamed/part_003 line 143). -/
def origin : Vec3 := ⟨0, 0, 0⟩

/-- The orbital part of the frame callback (src/unnamed/part_003 lines 72-77):
if `distance > 0` the `x` and `z` fields of the group position are set to
`sin(angle) * distance` and `cos(angle) * distance`; otherwise the position is
left untouched (`y` is never written). -/
noncomputable def frameStep (b : Body) (t : ℚ) (p : Vec3) : Vec3 :=
  if 0 < b.distance then
    ⟨Real.sin ((orbitAngle b t : ℚ) : ℝ) * (b.distance : ℝ),
     p.y,
     Real.cos ((orbitAngle b t : ℚ) : ℝ) * (b.distance : ℝ)⟩
  else p

/-- The position after a sequence of rendered frames at elapsed times `ts`,
starting from the initial group position. -/
noncomputable def runFrames (b : Body) (ts : List ℚ) : Vec3 :=
  ts.foldl (fun p t => frameStep b t p) origin

/-- Kinematic constants of the Sun (src/unnamed/part_008 lines 25-28):
`orbitSpeed 0`, `rotationSpeed 0.5`, `distance 0`. -/
def sunBody : Body := ⟨0, 0.5, 0⟩

/-- Kinematic constants of Earth (src/unnamed/part_008 lines 76-79):
`orbitSpeed 1.0`, `rotationSpeed 1.0`, `distance 16`. -/
def earthBody : Body := ⟨1, 1, 16⟩

/-! ## Deterministic narration texts -/

/-- The fields of the `PlanetData` interface that the narration code reads
(`name`/`nameId`, `description`/`descriptionId`, `facts`/`factsId`, as consumed
by src/src/hooks/useHybridTTS.ts lines 288-311 and src/unnamed/part_001
lines 130-153). -/
structure PlanetData where
  name : String
  nameId : String
  description : String
  descriptionId : String
  facts : List String
  factsId : List String
deriving DecidableEq

/-- The per-fact label `Fakta ke-${index+1}` / `Fact number ${index+1}`
(src/src/hooks/useHybridTTS.ts line 302, src/unnamed/part_001 line 144). -/
def factLabel (useIndonesian : Bool) (index : Nat) : String :=
  if useIndonesian then "Fakta ke-" ++ toString (index + 1)
  else "Fact number " ++ toString (index + 1)

/-- The facts list of the hook: `facts.map((fact, index) => factNumber + ": " + fact + ".")`
(src/src/hooks/useHybridTTS.ts lines 301-304), with the JavaScript map index
made explicit. -/
def factSentences (useIndonesian : Bool) : Nat → List String → List String
  | _, [] => []
  | index, fact :: rest =>
      (factLabel useIndonesian index ++ ": " ++ fact ++ ".") ::
        factSentences useIndonesian (index + 1) rest

/-- The facts list of the route: `facts.map((fact, index) => factNumber + ": " + fact)`
(src/unnamed/part_001 lines 143-146) — unlike the hook version, no trailing period. -/
def routeFactSentences (useIndonesian : Bool) : Nat → List String → List String
  | _, [] => []
  | index, fact :: rest =>
      (factLabel useIndonesian index ++ ": " ++ fact) ::
        routeFactSentences useIndonesian (index + 1) rest

/-- `Array.prototype.join` with a single space separator, on a list of strings. -/
def joinSpaced : List String → String
  | [] => ""
  | [s] => s
  | s :: rest => s ++ " " ++ joinSpaced rest

/-- Tier-3 deterministic narration `generateBasicNarration` of the hook
(src/src/hooks/useHybridTTS.ts lines 288-311). -/
def generateBasicNarration (pd : PlanetData) (useIndonesian : Bool) : String :=
  let name := if useIndonesian then pd.nameId else pd.name
  let description := if useIndonesian then pd.descriptionId else pd.description
  let facts := if useIndonesian then pd.factsId else pd.facts
  let introduction :=
    if useIndonesian then
      "Halo teman-teman! Mari kita pelajari tentang " ++ name ++ ". " ++ description
    else
      "Hello friends! Let\x27s learn about " ++ name ++ ". " ++ description
  let factsIntro :=
    if useIndonesian then "Berikut adalah fakta-fakta menarik:"
    else "Here are some amazing facts:"
  let factsList := joinSpaced (factSentences useIndonesian 0 facts)
  let conclusion :=
    if useIndonesian then
      "Itulah informasi menarik tentang " ++ name ++ ". Terima kasih sudah mendengarkan!"
    else
      "That was interesting information about " ++ name ++ ". Thank you for listening!"
  introduction ++ " " ++ factsIntro ++ " " ++ factsList ++ " " ++ conclusion

/-- Server-side fallback `generateBasicNarration` of the `/api/enhance-text`
route (src/unnamed/part_001 lines 130-153; the copy in the `/api/tts` route at
src/src/app/api/tts/route.ts lines 230-253 is textually identical). -/
def routeBasicNarration (pd : PlanetData) (useIndonesian : Bool) : String :=
  let name := if useIndonesian then pd.nameId else pd.name
  let description := if useIndonesian then pd.descriptionId else pd.description
  let facts := if useIndonesian then pd.factsId else pd.facts
  let introduction :=
    if useIndonesian then
      "Halo teman-teman! Ayo kita jelajahi " ++ name ++ "! " ++ description
    else
      "Hello friends! Let\x27s explore " ++ name ++ "! " ++ description
  let factsIntro :=
    if useIndonesian then "Mari kita pelajari fakta-fakta menakjubkan berikut:"
    else "Let\x27s learn these amazing facts:"
  let factsList := joinSpaced (routeFactSentences useIndonesian 0 facts)
  let conclusion :=
    if useIndonesian then
      "Wah, sungguh menakjubkan sekali ya " ++ name ++
        "! Ayo terus belajar tentang tata surya kita yang luar biasa! Sampai jumpa di petualangan luar angkasa berikutnya!"
    else
      "Wow, how amazing " ++ name ++
        " is! Keep exploring our incredible solar system! See you on the next space adventure!"
  introduction ++ " " ++ factsIntro ++ " " ++ factsList ++ " " ++ conclusion

/-! ## Environment and server routes of the speech pipeline -/

/-- The environment a narration request runs in: server configuration
(`process.env.OPENROUTER_API_KEY`), behaviour of the remote OpenRouter
services, and browser capabilities checked by the hook
(src/src/hooks/useHybridTTS.ts lines 26-35). `aiText` is the trimmed chat
completion content the remote model would return (`""` models a missing
content, src/unnamed/part_001 lines 120-124). -/
structure TTSEnv where
  apiKey : Option String
  chatOk : Bool
  aiText : String
  ttsAudioOk : Bool
  audioSupported : Bool
  speechSupported : Bool
  audioPlayOk : Bool
  utteranceOk : Bool
deriving DecidableEq

/-- The placeholder value both routes reject
(src/unnamed/part_001 line 18, src/src/app/api/tts/route.ts line 18). -/
def placeholderKey : String := "your_openrouter_api_key_here"

/-- The key check `!openRouterApiKey || openRouterApiKey === placeholder`
performed by both routes, negated: `true` iff the credential is usable. -/
def keyConfigured (e : TTSEnv) : Bool :=
  match e.apiKey with
  | none => false
  | some k => if k = placeholderKey then false else true

/-- Whether `POST /api/tts` answers 200 with an audio body
(src/src/app/api/tts/route.ts lines 9-68): a missing/placeholder key is an
immediate 500; the text-enhancement step cannot fail the route (it falls back
to the basic narration internally); the speech-synthesis step returns audio
iff the remote audio endpoint succeeds — its own fallback
(`generateSpeechOpenAI`, lines 219-227) always throws, producing a 500. -/
def ttsRouteOk (e : TTSEnv) : Bool :=
  keyConfigured e && e.ttsAudioOk

/-- A request to `POST /api/enhance-text` as the route distinguishes them
(src/unnamed/part_001 lines 9-15): a body that fails to parse, a parsed body
without `planetData`, or a well-formed body. -/
inductive EnhanceRequest
  | malformed
  | missingPlanet
  | valid (pd : PlanetData) (useIndonesian : Bool)
deriving DecidableEq

/-- HTTP response of the `/api/enhance-text` route. -/
structure RouteResponse where
  status : Nat
  enhancedText : Option String
  errorMsg : Option String
deriving DecidableEq

/-- The `/api/enhance-text` handler (src/unnamed/part_001 lines 9-50):
parse failure → 500; missing `planetData` → 400; no usable key → 200 with the
basic narration; key present → 200 with the AI text when the remote chat call
succeeds with non-empty content, else 200 with the basic narration. -/
def enhanceRoute (e : TTSEnv) : EnhanceRequest → RouteResponse
  | EnhanceRequest.malformed => ⟨500, none, some "Failed to enhance text"⟩
  | EnhanceRequest.missingPlanet => ⟨400, none, some "Planet data is required"⟩
  | EnhanceRequest.valid pd ind =>
      if keyConfigured e then
        if e.chatOk = true ∧ e.aiText ≠ "" then ⟨200, some e.aiText, none⟩
        else ⟨200, some (routeBasicNarration pd ind), none⟩
      else ⟨200, some (routeBasicNarration pd ind), none⟩

/-! ## Client tier chain (useHybridTTS.generateSpeech) -/

/-- The three fallback tiers, named after the `ttsMode` values of the hook
(src/src/hooks/useHybridTTS.ts line 18). -/
inductive Tier
  | ai
  | enhanced
  | basic
deriving DecidableEq

/-- Tier 1 (`tryAITTS`, lines 71-107) succeeds iff `/api/tts` answers ok, the
`Audio` element exists and playback starts. -/
def tier1Success (e : TTSEnv) : Bool :=
  ttsRouteOk e && e.audioSupported && e.audioPlayOk

/-- Tier 2 (`tryEnhancedBrowserTTS`, lines 110-130) succeeds iff
`/api/enhance-text` answers ok (it always does for a well-formed request) and
`playWithBrowserTTS` resolves `true`: `speechSynthesis` exists and the
utterance reaches `onend` (lines 139-179). -/
def tier2Success (e : TTSEnv) : Bool :=
  e.speechSupported && e.utteranceOk

/-- Tier 3 (`tryBasicBrowserTTS`, lines 133-137) succeeds under the same local
conditions as the speaking step of tier 2. -/
def tier3Success (e : TTSEnv) : Bool :=
  e.speechSupported && e.utteranceOk

/-- The capability check `audioSupported || speechSupported`
(src/src/hooks/useHybridTTS.ts lines 28-30). -/
def supported (e : TTSEnv) : Bool :=
  e.audioSupported || e.speechSupported

/-- The tiers a single `generateSpeech` call attempts, in order
(src/src/hooks/useHybridTTS.ts lines 181-219): nothing when unsupported,
otherwise each tier is tried exactly until the first success. -/
def attemptedTiers (e : TTSEnv) : List Tier :=
  if supported e = false then []
  else if tier1Success e then [Tier.ai]
  else if tier2Success e then [Tier.ai, Tier.enhanced]
  else [Tier.ai, Tier.enhanced, Tier.basic]

/-- The text tier 2 hands to `playWithBrowserTTS`: the `enhancedText` field of
the `/api/enhance-text` response (line 124). -/
def tier2Text (e : TTSEnv) (pd : PlanetData) (ind : Bool) : String :=
  match (enhanceRoute e (EnhanceRequest.valid pd ind)).enhancedText with
  | some t => t
  | none => ""

/-- Observable outcome of one `generateSpeech` call. -/
inductive SpeechOutcome
  | unsupported
  | playingAudio
  | speaking (text : String)
  | failed
deriving DecidableEq

/-- The outcome of `generateSpeech` (src/src/hooks/useHybridTTS.ts
lines 181-219): unsupported browsers error out before any tier; otherwise the
first succeeding tier determines the outcome; if all three fail the call
throws `All TTS methods failed`. -/
def generateSpeech (e : TTSEnv) (pd : PlanetData) (ind : Bool) : SpeechOutcome :=
  if supported e = false then SpeechOutcome.unsupported
  else if tier1Success e then SpeechOutcome.playingAudio
  else if tier2Success e then SpeechOutcome.speaking (tier2Text e pd ind)
  else if tier3Success e then SpeechOutcome.speaking (generateBasicNarration pd ind)
  else SpeechOutcome.failed

/-- An environment with no `OPENROUTER_API_KEY` but a working local speech
engine (and a working audio element, so the capability check passes either
way). -/
def envNoKey : TTSEnv :=
  ⟨none, false, "", false, true, true, true, true⟩

/-- An environment where the key is configured and every remote and local
capability works. -/
def envFull : TTSEnv :=
  ⟨some "sk-test", true, "enhanced narration", true, true, true, true, true⟩

/-! ## Transport control: toggle -/

/-- What a `toggle` call does. -/
inductive ToggleAction
  | noop
  | pause
  | play
deriving DecidableEq

/-- The `toggle` callback (src/src/hooks/useHybridTTS.ts lines 252-260):
return immediately while loading; pause when playing and not paused;
otherwise call `play`. -/
def toggle (isLoading isPlaying isPaused : Bool) : ToggleAction :=
  if isLoading then ToggleAction.noop
  else if isPlaying && !isPaused then ToggleAction.pause
  else ToggleAction.play

/-! ## Superseding-request interleaving (cleanup / generateSpeech) -/

/-- The two narration requests of the superseding scenario. -/
inductive Req
  | A
  | B
deriving DecidableEq

/-- Shared mutable state of the hook, as touched by two interleaved
`generateSpeech` calls: the progress of each request (program counter), the
`abortControllerRef` (owner request and tier of the controller currently in
the ref), the set of controllers that have been aborted, the audio element
ref with its playing flag, and the utterance `speechSynthesis` is currently
sounding. Program counters: 0 not started, 1 awaiting the tier-1 fetch,
2 awaiting the tier-2 fetch, 3 done with audio playing, 4 done with the
utterance speaking. -/
structure PState where
  pcA : Nat
  pcB : Nat
  ctrl : Option (Req × Nat)
  aborted : List (Req × Nat)
  audioOwner : Option Req
  audioPlaying : Bool
  speakingOwner : Option Req
deriving DecidableEq

/-- Program counter of a request. -/
def pcOf (s : PState) : Req → Nat
  | Req.A => s.pcA
  | Req.B => s.pcB

/-- Set the program counter of a request. -/
def setPc (s : PState) : Req → Nat → PState
  | Req.A, n => { s with pcA := n }
  | Req.B, n => { s with pcB := n }

/-- Scheduler events: a `generateSpeech(r)` call runs its synchronous prefix;
the tier-1 fetch of `r` settles (`ok` = the HTTP response was ok; an aborted
fetch rejects instead); the tier-2 fetch of `r` resolves ok. -/
inductive Ev
  | start (r : Req)
  | fetch1Settled (r : Req) (ok : Bool)
  | fetch2Ok (r : Req)
deriving DecidableEq

/-- One event. `start r` is the synchronous prefix of `generateSpeech`
(src/src/hooks/useHybridTTS.ts lines 187-193): `cleanup()` pauses and drops
the audio element, cancels `speechSynthesis`, aborts and drops the current
abort controller (lines 47-68); then `tryAITTS` installs a fresh controller
and issues the tier-1 fetch (lines 73-81). `fetch1Settled r ok`: when the
response is ok and the controller was never aborted, the audio element is
installed and played (lines 83-101); otherwise — a rejected (aborted) fetch
or a non-ok status — `tryAITTS` returns `false` and `generateSpeech` moves on
to `tryEnhancedBrowserTTS`, which installs another fresh controller and
issues the tier-2 fetch (lines 103-120). `fetch2Ok r`: `playWithBrowserTTS`
cancels any current utterance and speaks the text of `r` (lines 122-124, 139-178).
Events arriving at the wrong program counter leave the state unchanged. -/
def step (s : PState) : Ev → PState
  | Ev.start r =>
      if pcOf s r = 0 then
        setPc
          { s with
            aborted := (match s.ctrl with
              | some c => c :: s.aborted
              | none => s.aborted),
            ctrl := some (r, 1),
            audioOwner := none,
            audioPlaying := false,
            speakingOwner := none } r 1
      else s
  | Ev.fetch1Settled r ok =>
      if pcOf s r = 1 then
        if ok = true ∧ (r, 1) ∉ s.aborted then
          setPc { s with audioOwner := some r, audioPlaying := true } r 3
        else
          setPc { s with ctrl := some (r, 2) } r 2
      else s
  | Ev.fetch2Ok r =>
      if pcOf s r = 2 ∧ (r, 2) ∉ s.aborted then
        setPc { s with speakingOwner := some r } r 4
      else s

/-- Initial hook state: nothing in flight, nothing audible. -/
def pInit : PState := ⟨0, 0, none, [], none, false, none⟩

/-- Run a sequence of scheduler events. -/
def runTTS (evs : List Ev) : PState :=
  evs.foldl step pInit

/-- The superseding scenario: request A starts; request B starts before the
tier-1 fetch of A settles (so `cleanup` aborts the controller of A); the
aborted fetch of A rejects, and the chain of A continues to tier 2; the
tier-1 fetch of B returns ok and the audio of B starts; the tier-2 fetch of
A (the `/api/enhance-text` route answers 200 even without a key) resolves
and the narration of A is spoken. -/
def supersedeTrace : List Ev :=
  [Ev.start Req.A,
   Ev.start Req.B,
   Ev.fetch1Settled Req.A false,
   Ev.fetch1Settled Req.B true,
   Ev.fetch2Ok Req.A]

/-! ## Helper lemmas -/

/-- Appending strings appends their character data. -/
theorem strData_append (a b : String) : (a ++ b).data = a.data ++ b.data := by
  rcases a with ⟨a⟩
  rcases b with ⟨b⟩
  rfl

/-- Strings with equal character data are equal. -/
theorem strExt {a b : String} (h : a.data = b.data) : a = b := by
  rcases a with ⟨a⟩
  rcases b with ⟨b⟩
  cases h
  rfl

/-- String append is associative. -/
theorem strAppend_assoc (a b c : String) : a ++ b ++ c = a ++ (b ++ c) :=
  strExt (by simp [strData_append])

/-! ## Orbital animation theorems -/

/-- The frame callback leaves the position of a non-orbiting body alone. -/
theorem frameStep_dist_zero {b : Body} (h : b.distance = 0) (t : ℚ) (p : Vec3) :
    frameStep b t p = p := by
  have : ¬ 0 < b.distance := by rw [h]; exact lt_irrefl 0
  simp [frameStep, this]

/-- C4: a body with `distance = 0` stays at the origin over any sequence of
rendered frames, regardless of the elapsed times (and hence of any UI speed
setting, which the frame callback never reads). -/
theorem c4_star_fixed_at_origin (b : Body) (ts : List ℚ) (h : b.distance = 0) :
    runFrames b ts = origin := by
  unfold runFrames
  induction ts with
  | nil => rfl
  | cons t rest ih =>
      rw [List.foldl_cons, frameStep_dist_zero h]
      exact ih

/-- C4 witness: the Sun (`distance = 0`) stays at the origin across frames at
elapsed times 0, 1 and 5/2 seconds. -/
theorem c4_star_fixed_at_origin_witness :
    sunBody.distance = 0 ∧ runFrames sunBody [0, 1, 5/2] = origin :=
  ⟨rfl, c4_star_fixed_at_origin sunBody [0, 1, 5/2] rfl⟩

/-- C5: a body with `distance = d > 0` is placed on the circle of radius `d`
at every frame: the computed `(x, _, z)` satisfies `sqrt (x² + z²) = d`
exactly, in real arithmetic. -/
theorem c5_orbit_on_circle (b : Body) (t : ℚ) (p : Vec3) (h : 0 < b.distance) :
    Real.sqrt ((frameStep b t p).x ^ 2 + (frameStep b t p).z ^ 2)
      = (b.distance : ℝ) := by
  have hd : (0 : ℝ) < (b.distance : ℝ) := by exact_mod_cast h
  simp only [frameStep, if_pos h]
  have key :
      (Real.sin ((orbitAngle b t : ℚ) : ℝ) * (b.distance : ℝ)) ^ 2 +
        (Real.cos ((orbitAngle b t : ℚ) : ℝ) * (b.distance : ℝ)) ^ 2
      = ((b.distance : ℝ)) ^ 2 := by
    have hpyth := Real.sin_sq_add_cos_sq ((orbitAngle b t : ℚ) : ℝ)
    nlinarith [hpyth]
  rw [key, Real.sqrt_sq hd.le]

/-- C5 witness: Earth (`distance = 16 > 0`) at elapsed time 0 sits at distance
16 from the Sun. -/
theorem c5_orbit_on_circle_witness :
    (0 : ℚ) < earthBody.distance ∧
      Real.sqrt ((frameStep earthBody 0 origin).x ^ 2 +
        (frameStep earthBody 0 origin).z ^ 2) = (earthBody.distance : ℝ) :=
  ⟨by decide, c5_orbit_on_circle earthBody 0 origin (by decide)⟩

/-- C6: the frame callback sets the self-rotation to
`elapsedTime * rotationSpeed * 0.5` exactly when `rotationSpeed > 0`, and
leaves the rotation unchanged for a body with `rotationSpeed = 0`. -/
theorem c6_self_rotation (b : Body) (t r : ℚ) :
    (0 < b.rotationSpeed → rotStep b t r = t * b.rotationSpeed * 0.5) ∧
      (b.rotationSpeed = 0 → rotStep b t r = r) := by
  constructor
  · intro h
    simp [rotStep, if_pos h]
  · intro h
    simp [rotStep, h]

/-- C6 witness: Earth (`rotationSpeed = 1`) is rotated to `2 * 1 * 0.5` at
elapsed time 2, and a body with `rotationSpeed = 0` keeps its rotation 7. -/
theorem c6_self_rotation_witness :
    (0 < earthBody.rotationSpeed ∧
      rotStep earthBody 2 3 = 2 * earthBody.rotationSpeed * 0.5) ∧
      ((Body.mk 0 0 0).rotationSpeed = 0 ∧ rotStep (Body.mk 0 0 0) 2 7 = 7) :=
  ⟨⟨by decide, (c6_self_rotation earthBody 2 3).1 (by decide)⟩,
   ⟨rfl, (c6_self_rotation (Body.mk 0 0 0) 2 7).2 rfl⟩⟩

/-- C1: evaluation of the frame callback at the failing input. The claim says
`angle = t * orbitSpeed * speedMultiplier * 0.2`, so that `speedMultiplier = 0`
freezes the orbital position; but `frameStep` — the faithful translation of
the callback — takes no multiplier at all (the `orbitSpeedMultiplier` prop
passed by `SceneContent` is never read), so the position of Earth still advances
between elapsed times 0 and 5 whatever the UI slider shows, including the
`Paused` (0) setting offered by `OrbitSpeedSettings`. -/
theorem c1_multiplier_ignored :
    frameStep earthBody 5 origin ≠ frameStep earthBody 0 origin := by
  have h5 : orbitAngle earthBody 5 = 1 := by
    norm_num [orbitAngle, earthBody]
  have h0 : orbitAngle earthBody 0 = 0 := by
    norm_num [orbitAngle]
  have hd : (0 : ℚ) < earthBody.distance := by decide
  intro h
  have hx := congrArg Vec3.x h
  simp only [frameStep, if_pos hd, h5, h0] at hx
  rw [show (((1 : ℚ)) : ℝ) = 1 by norm_num,
    show (((0 : ℚ)) : ℝ) = 0 by norm_num, Real.sin_zero, zero_mul] at hx
  have hsin : 0 < Real.sin 1 :=
    Real.sin_pos_of_pos_of_lt_pi one_pos (by linarith [Real.pi_gt_three])
  have hdr : (0 : ℝ) < (earthBody.distance : ℝ) := by exact_mod_cast hd
  nlinarith [hsin, hdr, hx]

/-! ## Transport control theorems -/

/-- C9: `toggle` is a no-op while a request is loading, pauses when playing
and not paused, and plays (starts or resumes) when idle or paused. -/
theorem c9_toggle (l p q : Bool) :
    (l = true → toggle l p q = ToggleAction.noop) ∧
      (l = false → p = true → q = false → toggle l p q = ToggleAction.pause) ∧
      (l = false → (p = false ∨ q = true) → toggle l p q = ToggleAction.play) := by
  revert l p q
  decide

/-- C9 witness: the three behaviours at concrete states: loading, playing
unpaused, and idle. -/
theorem c9_toggle_witness :
    toggle true true false = ToggleAction.noop ∧
      toggle false true false = ToggleAction.pause ∧
      toggle false false false = ToggleAction.play :=
  ⟨(c9_toggle true true false).1 rfl,
   (c9_toggle false true false).2.1 rfl rfl rfl,
   (c9_toggle false false false).2.2 rfl (Or.inl rfl)⟩

/-! ## Tier ordering theorems -/

/-- C7: within one `generateSpeech` call the attempted tiers form a strict
sequential chain — always a prefix of `[ai, enhanced, basic]`; tier 2 is only
reached once tier 1 has failed, tier 3 only once tiers 1 and 2 have failed;
and the chain stops at the first tier that succeeds. -/
theorem c7_tier_order (e : TTSEnv) :
    (attemptedTiers e = [] ∨ attemptedTiers e = [Tier.ai] ∨
        attemptedTiers e = [Tier.ai, Tier.enhanced] ∨
        attemptedTiers e = [Tier.ai, Tier.enhanced, Tier.basic]) ∧
      (Tier.enhanced ∈ attemptedTiers e → tier1Success e = false) ∧
      (Tier.basic ∈ attemptedTiers e →
        tier1Success e = false ∧ tier2Success e = false) ∧
      (supported e = true → tier1Success e = true →
        attemptedTiers e = [Tier.ai]) ∧
      (supported e = true → tier1Success e = false → tier2Success e = true →
        attemptedTiers e = [Tier.ai, Tier.enhanced]) := by
  cases hs : supported e <;> cases h1 : tier1Success e <;>
    cases h2 : tier2Success e <;>
      simp [attemptedTiers, hs, h1, h2]

/-- C7 witness: with no key but a working local voice, tier 2 is attempted and
tier 1 indeed failed; with everything configured and working, the chain stops
after tier 1. -/
theorem c7_tier_order_witness :
    (Tier.enhanced ∈ attemptedTiers envNoKey ∧ tier1Success envNoKey = false) ∧
      (supported envFull = true ∧ tier1Success envFull = true ∧
        attemptedTiers envFull = [Tier.ai]) :=
  ⟨⟨by decide, (c7_tier_order envNoKey).2.1 (by decide)⟩,
   ⟨by decide, by decide, (c7_tier_order envFull).2.2.2.1 (by decide) (by decide)⟩⟩

/-! ## Missing-credential behaviour -/

/-- C2 counterexample: with the key absent and a working local voice, the
attempted-tier list is not `[basic]` — tier 1 is attempted (its route answers
500 and it fails), refuting the claim that the pipeline "skips directly to
tier 3, never attempting tier 1 or tier 2". -/
theorem c2_counterexample :
    Tier.ai ∈ attemptedTiers envNoKey ∧
      attemptedTiers envNoKey ≠ [Tier.basic] := by
  decide

/-- C2 (amended): when the credential is absent or the placeholder and local
speech works, the client still attempts tier 1 (which fails fast: `/api/tts`
answers 500 without contacting any remote service) and then tier 2, which
succeeds: `/api/enhance-text` answers 200 with the deterministic basic
narration (no remote call), spoken by the local voice; tier 3 is never
reached and the request succeeds. -/
theorem c2_degraded_narration (e : TTSEnv) (pd : PlanetData) (ind : Bool)
    (hkey : e.apiKey = none ∨ e.apiKey = some placeholderKey)
    (hspeech : e.speechSupported = true) (hutt : e.utteranceOk = true) :
    attemptedTiers e = [Tier.ai, Tier.enhanced] ∧
      generateSpeech e pd ind
        = SpeechOutcome.speaking (routeBasicNarration pd ind) := by
  have hk : keyConfigured e = false := by
    rcases hkey with h | h <;> simp [keyConfigured, h]
  have h1 : tier1Success e = false := by
    simp [tier1Success, ttsRouteOk, hk]
  have hsup : supported e = true := by
    simp [supported, hspeech]
  have h2 : tier2Success e = true := by
    simp [tier2Success, hspeech, hutt]
  refine ⟨by simp [attemptedTiers, hsup, h1, h2], ?_⟩
  simp [generateSpeech, hsup, h1, h2, tier2Text, enhanceRoute, hk]

/-- C2 witness: the amended behaviour at the concrete no-key environment and a
concrete body. -/
theorem c2_degraded_narration_witness :
    (envNoKey.apiKey = none ∨ envNoKey.apiKey = some placeholderKey) ∧
      envNoKey.speechSupported = true ∧ envNoKey.utteranceOk = true ∧
      (attemptedTiers envNoKey = [Tier.ai, Tier.enhanced] ∧
        generateSpeech envNoKey (PlanetData.mk "Earth" "Bumi" "d" "e" [] []) true
          = SpeechOutcome.speaking
              (routeBasicNarration (PlanetData.mk "Earth" "Bumi" "d" "e" [] []) true)) :=
  ⟨Or.inl rfl, rfl, rfl,
   c2_degraded_narration envNoKey (PlanetData.mk "Earth" "Bumi" "d" "e" [] []) true
     (Or.inl rfl) rfl rfl⟩

/-! ## Superseding-request theorem -/

/-- C3: evaluation of the superseding scenario. After request B supersedes
request A (the tier-1 controller of A is aborted), the rejected fetch of A is
swallowed inside `tryAITTS`, the chain of A continues to tier 2, and the
narration of A is spoken while the tier-1 audio of B is playing: both are audible at once, and the
superseded request A did produce audible output — contradicting the claim
that A produces no audible output and at most one narration is ever audible. -/
theorem c3_superseded_request_still_audible :
    (Req.A, 1) ∈ (runTTS supersedeTrace).aborted ∧
      (runTTS supersedeTrace).audioPlaying = true ∧
      (runTTS supersedeTrace).audioOwner = some Req.B ∧
      (runTTS supersedeTrace).speakingOwner = some Req.A := by
  decide

/-! ## Enhance-text route theorems -/

/-- The basic narration of the route is never the empty string: it always starts
with a non-empty greeting literal. -/
theorem routeBasic_ne_empty (pd : PlanetData) (ind : Bool) :
    routeBasicNarration pd ind ≠ "" := by
  intro h
  have hd := congrArg String.data h
  cases ind <;> simp [routeBasicNarration, strData_append] at hd

/-- C10: for every well-formed request carrying a `planetData` object,
`/api/enhance-text` answers 200 with a non-empty narration string (the AI
text when the key is configured and the remote call succeeds with content,
otherwise the deterministic basic narration); a non-200 status occurs only
for a missing `planetData` (400) or an unparsable body (500) — remote
failure or a missing key never produces an error response. -/
theorem c10_enhance_route (e : TTSEnv) (req : EnhanceRequest) :
    (∀ pd ind, req = EnhanceRequest.valid pd ind →
        (enhanceRoute e req).status = 200 ∧
          ∃ t, (enhanceRoute e req).enhancedText = some t ∧ t ≠ "") ∧
      ((enhanceRoute e req).status ≠ 200 →
        req = EnhanceRequest.malformed ∨ req = EnhanceRequest.missingPlanet) := by
  constructor
  · rintro pd ind rfl
    simp only [enhanceRoute]
    split_ifs with h1 h2
    · exact ⟨rfl, e.aiText, rfl, h2.2⟩
    · exact ⟨rfl, routeBasicNarration pd ind, rfl, routeBasic_ne_empty pd ind⟩
    · exact ⟨rfl, routeBasicNarration pd ind, rfl, routeBasic_ne_empty pd ind⟩
  · intro hne
    cases req with
    | malformed => exact Or.inl rfl
    | missingPlanet => exact Or.inr rfl
    | valid pd ind =>
        exfalso
        apply hne
        simp only [enhanceRoute]
        split_ifs <;> rfl

/-- C10 witness: a well-formed request without a configured key gets 200 with
a non-empty narration, and a request missing `planetData` (status 400) is one
of the two error cases. -/
theorem c10_enhance_route_witness :
    ((enhanceRoute envNoKey
          (EnhanceRequest.valid (PlanetData.mk "Mars" "Mars" "a" "b" [] []) false)).status
        = 200 ∧
      ∃ t, (enhanceRoute envNoKey
          (EnhanceRequest.valid (PlanetData.mk "Mars" "Mars" "a" "b" [] []) false)).enhancedText
        = some t ∧ t ≠ "") ∧
      ((enhanceRoute envNoKey EnhanceRequest.missingPlanet).status ≠ 200 ∧
        (EnhanceRequest.missingPlanet = EnhanceRequest.malformed ∨
          EnhanceRequest.missingPlanet = EnhanceRequest.missingPlanet)) :=
  ⟨(c10_enhance_route envNoKey
        (EnhanceRequest.valid (PlanetData.mk "Mars" "Mars" "a" "b" [] []) false)).1
      (PlanetData.mk "Mars" "Mars" "a" "b" [] []) false rfl,
   by decide,
   (c10_enhance_route envNoKey EnhanceRequest.missingPlanet).2 (by decide)⟩

/-! ## Tier-3 narration format (default locale) -/

/-- The first Indonesian fact label. -/
theorem factLabel_id_0 : factLabel true 0 = "Fakta ke-1" := rfl

/-- The second Indonesian fact label. -/
theorem factLabel_id_1 : factLabel true 1 = "Fakta ke-2" := rfl

/-- The third Indonesian fact label. -/
theorem factLabel_id_2 : factLabel true 2 = "Fakta ke-3" := rfl

/-- The fourth Indonesian fact label. -/
theorem factLabel_id_3 : factLabel true 3 = "Fakta ke-4" := rfl

/-- C8: in the default locale (the hook defaults to Indonesian,
src/src/hooks/useHybridTTS.ts lines 24 and 181), the tier-3 deterministic
narration for a body with exactly four facts is, in this order: the localized
greeting naming the body, the description of the body, the localized facts intro,
the four facts each labelled `Fakta ke-<i>: <fact>.`, and the localized
closing naming the body again. -/
theorem c8_basic_narration_format (pd : PlanetData) (f1 f2 f3 f4 : String)
    (h : pd.factsId = [f1, f2, f3, f4]) :
    generateBasicNarration pd true =
      "Halo teman-teman! Mari kita pelajari tentang " ++ pd.nameId ++ ". " ++
        pd.descriptionId ++
        " " ++ "Berikut adalah fakta-fakta menarik:" ++ " " ++
        "Fakta ke-1: " ++ f1 ++ ". " ++
        "Fakta ke-2: " ++ f2 ++ ". " ++
        "Fakta ke-3: " ++ f3 ++ ". " ++
        "Fakta ke-4: " ++ f4 ++ "." ++
        " " ++ "Itulah informasi menarik tentang " ++ pd.nameId ++
        ". Terima kasih sudah mendengarkan!" := by
  apply strExt
  simp [generateBasicNarration, h, factSentences, joinSpaced, factLabel_id_0,
    factLabel_id_1, factLabel_id_2, factLabel_id_3, strData_append,
    List.append_assoc]

/-- C8 witness: the format at a concrete body with four Indonesian facts. -/
theorem c8_basic_narration_format_witness :
    (PlanetData.mk "Earth" "Bumi" "Home." "Rumah kita."
        ["one", "two", "three", "four"] ["satu", "dua", "tiga", "empat"]).factsId
      = ["satu", "dua", "tiga", "empat"] ∧
    generateBasicNarration
        (PlanetData.mk "Earth" "Bumi" "Home." "Rumah kita."
          ["one", "two", "three", "four"] ["satu", "dua", "tiga", "empat"]) true
      = "Halo teman-teman! Mari kita pelajari tentang " ++ "Bumi" ++ ". " ++
          "Rumah kita." ++
          " " ++ "Berikut adalah fakta-fakta menarik:" ++ " " ++
          "Fakta ke-1: " ++ "satu" ++ ". " ++
          "Fakta ke-2: " ++ "dua" ++ ". " ++
          "Fakta ke-3: " ++ "tiga" ++ ". " ++
          "Fakta ke-4: " ++ "empat" ++ "." ++
          " " ++ "Itulah informasi menarik tentang " ++ "Bumi" ++
          ". Terima kasih sudah mendengarkan!" :=
  ⟨rfl,
   c8_basic_narration_format
     (PlanetData.mk "Earth" "Bumi" "Home." "Rumah kita."
       ["one", "two", "three", "four"] ["satu", "dua", "tiga", "empat"])
     "satu" "dua" "tiga" "empat" rfl⟩

end Solar
